import Mathlib

/-!
Verification of the optimistic mutation cache of the meds-buddy tracker
(src/hooks/useMedications.ts, src/types.ts).

The cache is the react-query client: a key/value store of cached
collections keyed by ["medications", userId].  `useAddMedication` runs the
optimistic-write protocol: cancel in-flight fetches, snapshot, speculative
append of a placeholder record, remote insert, rollback on error,
invalidate on settle.  We embed the cache state explicitly and the hook
handlers as pure state transformers; the nondeterministic inputs (the
generated uuid, the client clock, the remote outcome) are parameters.
-/

namespace MedsBuddy

/-- A medication record (interface Medication, src/types.ts). -/
structure Medication where
  id : String
  created_at : String
  user_id : String
  name : String
  dosage : String
  frequency : String
deriving DecidableEq, Repr

/-- Caller-supplied domain fields (type NewMedication, src/types.ts):
Medication without id, created_at, user_id. -/
structure NewMedication where
  name : String
  dosage : String
  frequency : String
deriving DecidableEq, Repr

/-- A react-query cache key: entity kind together with the (possibly
unresolved) user identifier, as in ["medications", currentUserId]. -/
abbrev QueryKey := String × Option String

/-- The collection key used by both hooks for a given user identifier. -/
def medKey (uid : Option String) : QueryKey := ("medications", uid)

/-- The query-client cache: per key, the cached collection (absent when
never set), whether a fetch is in flight, and whether the entry has been
invalidated (marked stale). -/
structure CacheState where
  data : QueryKey → Option (List Medication)
  inFlight : QueryKey → Bool
  invalidated : QueryKey → Bool

/-- queryClient.getQueryData: read the cached collection for a key. -/
def getQueryData (k : QueryKey) (st : CacheState) : Option (List Medication) :=
  st.data k

/-- queryClient.setQueryData with a direct value.  Per the query library
contract, an absent (undefined) value leaves the cache entry unchanged;
a present value replaces the entry wholesale. -/
def setQueryData (k : QueryKey) (v : Option (List Medication)) (st : CacheState) : CacheState :=
  match v with
  | none => st
  | some coll =>
    { st with data := fun k2 => if k2 = k then some coll else st.data k2 }

/-- queryClient.setQueryData with an updater function: the updater sees
the current entry and its result (when present) replaces it. -/
def setQueryDataWith (k : QueryKey)
    (f : Option (List Medication) → Option (List Medication)) (st : CacheState) : CacheState :=
  setQueryData k (f (st.data k)) st

/-- queryClient.cancelQueries: after it resolves, no fetch for the key is
in flight any more. -/
def cancelQueries (k : QueryKey) (st : CacheState) : CacheState :=
  { st with inFlight := fun k2 => if k2 = k then false else st.inFlight k2 }

/-- queryClient.invalidateQueries: mark the entry stale so the next read
refetches; the cached data itself is untouched. -/
def invalidateQueries (k : QueryKey) (st : CacheState) : CacheState :=
  { st with invalidated := fun k2 => if k2 = k then true else st.invalidated k2 }

/-- Completion of a background fetch for a key: it writes its result only
when the fetch is still in flight; the completion of a canceled fetch is
a no-op. -/
def fetchComplete (k : QueryKey) (result : List Medication) (st : CacheState) : CacheState :=
  if st.inFlight k then
    { data := fun k2 => if k2 = k then some result else st.data k2
      inFlight := fun k2 => if k2 = k then false else st.inFlight k2
      invalidated := fun k2 => if k2 = k then false else st.invalidated k2 }
  else st

/-- The placeholder record synthesized inside onMutate (useMedications.ts
lines 78-83): temporary id "optimistic-" ++ uuid, client timestamp,
current user as owner, and the caller-supplied fields spread in. -/
def tempMed (newMed : NewMedication) (u : String) (uuid : String) (now : String) : Medication :=
  { id := "optimistic-" ++ uuid
    created_at := now
    user_id := u
    name := newMed.name
    dosage := newMed.dosage
    frequency := newMed.frequency }

/-- The onMutate handler of useAddMedication (lines 60-88).  With no
resolved user it returns immediately with no context and no cache change.
Otherwise it cancels in-flight fetches for the key, snapshots the current
entry, optimistically appends the placeholder, and returns the snapshot
as context.  The context type mirrors \x7b previousMedications \x7d. -/
def onMutate (uid : Option String) (newMed : NewMedication) (uuid now : String)
    (st : CacheState) : CacheState × Option (Option (List Medication)) :=
  match uid with
  | none => (st, none)
  | some u =>
    let key := medKey (some u)
    let st1 := cancelQueries key st
    let previousMedications := getQueryData key st1
    let st2 := setQueryDataWith key
      (fun old =>
        some (match old with
          | some l => l ++ [tempMed newMed u uuid now]
          | none => [tempMed newMed u uuid now])) st1
    (st2, some previousMedications)

/-- The onError handler (lines 90-98): write context?.previousMedications
back under the key.  When the context or the snapshot is absent the write
carries an absent value and changes nothing. -/
def onError (uid : Option String) (ctx : Option (Option (List Medication)))
    (st : CacheState) : CacheState :=
  setQueryData (medKey uid) (ctx.getD none) st

/-- The onSettled handler (lines 99-104): always invalidate the key. -/
def onSettled (uid : Option String) (st : CacheState) : CacheState :=
  invalidateQueries (medKey uid) st

/-- The mutationFn (lines 44-58): fail with an authentication error when
no user is resolved; otherwise the remote insert outcome decides. -/
def mutationFn (uid : Option String) (remote : Except String Medication) :
    Except String Medication :=
  match uid with
  | none => Except.error "User not authenticated."
  | some _ => remote

/-- One full run of the useAddMedication mutation in the order the query
library fires the handlers: onMutate, then mutationFn, then onError when
it failed, then onSettled always.  Returns the final cache state and the
surfaced outcome. -/
def addMedication (uid : Option String) (newMed : NewMedication) (uuid now : String)
    (remote : Except String Medication) (st : CacheState) :
    CacheState × Except String Medication :=
  let step1 := onMutate uid newMed uuid now st
  match mutationFn uid remote with
  | Except.error e => (onSettled uid (onError uid step1.2 step1.1), Except.error e)
  | Except.ok d => (onSettled uid step1.1, Except.ok d)

/-- The staleTime configured by useGetMedications (line 33): 5 minutes in
milliseconds. -/
def staleTimeMs : Nat := 5 * 60 * 1000

/-- Modelled from the spec: the Query Controller read-side state for one
collection key (section 4.2); the controller implementation lives in the
external query library, only its staleTime configuration is in src. -/
structure QueryState where
  cached : Option (List Medication)
  fetchedAt : Option Nat
  stale : Bool
deriving DecidableEq, Repr

/-- Modelled from the spec: a fetched collection is fresh while the
staleness window has not elapsed and the entry was not invalidated. -/
def isFresh (now : Nat) (qs : QueryState) : Bool :=
  match qs.fetchedAt with
  | none => false
  | some t0 => !qs.stale && decide (now < t0 + staleTimeMs)

/-- Modelled from the spec: a load call at a given instant.  When the
entry is fresh it is a no-op against the Remote Store; otherwise it
fetches and stores the result.  The Bool reports whether a Remote Store
call was issued. -/
def load (now : Nat) (result : List Medication) (qs : QueryState) : QueryState × Bool :=
  if isFresh now qs then (qs, false)
  else ({ cached := some result, fetchedAt := some now, stale := false }, true)

/-- One load call folded over an accumulator of state and Remote Store
call count. -/
def loadStep (acc : QueryState × Nat) (ev : Nat × List Medication) : QueryState × Nat :=
  let r := load ev.1 ev.2 acc.1
  (r.1, acc.2 + (if r.2 then 1 else 0))

/-- Run a sequence of load calls (each an instant paired with the result
the Remote Store would return) and count the Remote Store calls issued. -/
def loadCalls (events : List (Nat × List Medication)) (qs : QueryState) : QueryState × Nat :=
  events.foldl loadStep (qs, 0)

/-- A cache with no entry set, nothing in flight, nothing invalidated. -/
def emptyCache : CacheState :=
  { data := fun _ => none, inFlight := fun _ => false, invalidated := fun _ => false }

/-- Lexicographic byte order on character lists, the order the Remote
Store applies to the ISO timestamp strings in created_at. -/
def charListLe : List Char → List Char → Bool
  | [], _ => true
  | _ :: _, [] => false
  | a :: as, b :: bs =>
    if a.val < b.val then true
    else if a.val = b.val then charListLe as bs
    else false

/-- Timestamp order: lexicographic order of the ISO strings. -/
def tsLe (a b : String) : Prop := charListLe a.data b.data = true

instance (a b : String) : Decidable (tsLe a b) := by
  unfold tsLe
  infer_instance

/-- Records in created_at ascending order. -/
def sortedByCreatedAt (l : List Medication) : Prop :=
  List.Pairwise (fun a b => tsLe a.created_at b.created_at) l

instance (l : List Medication) : Decidable (sortedByCreatedAt l) := by
  unfold sortedByCreatedAt
  infer_instance

/-- Concrete domain fields used to instantiate the theorems. -/
def aspirin : NewMedication := { name := "Aspirin", dosage := "100mg", frequency := "daily" }

/-- A concrete server-assigned record owned by user u1. -/
def med0 : Medication :=
  { id := "srv-1", created_at := "2026-01-01T00:00:00Z", user_id := "u1"
    name := "Ibuprofen", dosage := "200mg", frequency := "daily" }

/-- A concrete server-assigned record owned by user u2. -/
def med2 : Medication :=
  { id := "srv-2", created_at := "2026-01-02T00:00:00Z", user_id := "u2"
    name := "Paracetamol", dosage := "500mg", frequency := "nightly" }

/-- A cache seeded with one collection per user and a fetch in flight for
u1, used to instantiate the theorems. -/
def seededCache : CacheState :=
  { data := fun k =>
      if k = medKey (some "u1") then some [med0]
      else if k = medKey (some "u2") then some [med2]
      else none
    inFlight := fun k => if k = medKey (some "u1") then true else false
    invalidated := fun _ => false }

/-- C2: if the current user identifier is unresolved when the mutation is
called, the mutation surfaces the authentication error, and no cache
mutation happens at all: the cached data of every key is untouched (no
snapshot write, no speculative apply, no rollback write) and the
in-flight flag of every key is untouched (no cancel). -/
theorem C2_no_user_fails_fast_without_cache_mutation
    (newMed : NewMedication) (uuid now : String)
    (remote : Except String Medication) (st : CacheState) :
    (addMedication none newMed uuid now remote st).2 = Except.error "User not authenticated."
    ∧ ∀ k, (addMedication none newMed uuid now remote st).1.data k = st.data k
      ∧ (addMedication none newMed uuid now remote st).1.inFlight k = st.inFlight k := by
  refine ⟨rfl, fun k => ⟨?_, ?_⟩⟩ <;>
    simp [addMedication, mutationFn, onMutate, onError, onSettled, setQueryData,
      invalidateQueries, Option.getD]

/-- C3: whatever the remote outcome, after settle the collection key of
the mutation is invalidated; and on the success path the cached data of
every key is exactly what the speculative apply left there — the
authoritative record is never spliced in place of the placeholder, the
invalidate-then-refetch is the only reconciliation mechanism. -/
theorem C3_settle_invalidates_and_never_patches_in_place
    (uid : Option String) (newMed : NewMedication) (uuid now : String) (st : CacheState) :
    (∀ remote, (addMedication uid newMed uuid now remote st).1.invalidated (medKey uid) = true)
    ∧ ∀ med k, (addMedication uid newMed uuid now (Except.ok med) st).1.data k
        = (onMutate uid newMed uuid now st).1.data k := by
  constructor
  · intro remote
    cases uid <;> cases remote <;>
      simp [addMedication, mutationFn, onSettled, invalidateQueries]
  · intro med k
    cases uid <;>
      simp [addMedication, mutationFn, onMutate, onError, onSettled, setQueryData,
        invalidateQueries, Option.getD]

/-- C6: the speculative apply appends exactly the placeholder built from
the mutation inputs, and that placeholder has identifier
"optimistic-" ++ uuid (a namespace distinct from server identifiers), the
client timestamp as created_at, the current user as owner, and precisely
the caller-supplied domain fields. -/
theorem C6_placeholder_record_shape
    (u : String) (newMed : NewMedication) (uuid now : String) (st : CacheState) :
    (onMutate (some u) newMed uuid now st).1.data (medKey (some u))
      = some (((st.data (medKey (some u))).getD []) ++ [tempMed newMed u uuid now])
    ∧ (tempMed newMed u uuid now).id = "optimistic-" ++ uuid
    ∧ (tempMed newMed u uuid now).created_at = now
    ∧ (tempMed newMed u uuid now).user_id = u
    ∧ (tempMed newMed u uuid now).name = newMed.name
    ∧ (tempMed newMed u uuid now).dosage = newMed.dosage
    ∧ (tempMed newMed u uuid now).frequency = newMed.frequency := by
  refine ⟨?_, rfl, rfl, rfl, rfl, rfl, rfl⟩
  cases h : st.data (medKey (some u)) <;>
    simp [onMutate, setQueryDataWith, setQueryData, cancelQueries, getQueryData, h]

/-- C1, counterexample to the claim as stated: when the collection was
never cached, the snapshot read before the apply is the absent value, and
after a failed insert the cache under the key is not byte-for-byte that
snapshot — the placeholder is still there. -/
theorem C1_counterexample_absent_snapshot :
    ¬ ((addMedication (some "u1") aspirin "tok" "2026-01-03T00:00:00Z"
          (Except.error "insert failed") emptyCache).1.data (medKey (some "u1"))
        = emptyCache.data (medKey (some "u1"))) := by
  decide

/-- C1 (amended): for every mutation whose remote insert fails and whose
pre-apply snapshot was a present collection, the cache under the key
after settle is exactly that snapshot - full rollback, placeholder
discarded.  (When the snapshot was absent, the rollback write carries an
absent value and is a no-op, so the placeholder remains.) -/
theorem C1_failed_insert_restores_present_snapshot
    (u : String) (newMed : NewMedication) (uuid now err : String)
    (st : CacheState) (prev : List Medication)
    (h : st.data (medKey (some u)) = some prev) :
    (addMedication (some u) newMed uuid now (Except.error err) st).1.data (medKey (some u))
      = some prev := by
  simp [addMedication, mutationFn, onMutate, onError, onSettled, getQueryData,
    cancelQueries, setQueryDataWith, setQueryData, invalidateQueries, h, Option.getD]

/-- C1, witness: with the collection of u1 cached as [med0], a failed
insert leaves [med0] under the key after settle. -/
theorem C1_failed_insert_restores_present_snapshot_witness :
    seededCache.data (medKey (some "u1")) = some [med0]
    ∧ (addMedication (some "u1") aspirin "tok" "2026-01-03T00:00:00Z"
        (Except.error "insert failed") seededCache).1.data (medKey (some "u1"))
      = some [med0] :=
  ⟨by decide,
   C1_failed_insert_restores_present_snapshot "u1" aspirin "tok" "2026-01-03T00:00:00Z"
     "insert failed" seededCache [med0] (by decide)⟩

/-- C10: when the collection was absent at mutation start, the retained
snapshot is the absent value, the rollback write on failure is a no-op,
and after settle the cache under the key still holds exactly the
placeholder - absence is not restored. -/
theorem C10_absent_snapshot_rollback_keeps_placeholder
    (u : String) (newMed : NewMedication) (uuid now err : String) (st : CacheState)
    (h : st.data (medKey (some u)) = none) :
    (addMedication (some u) newMed uuid now (Except.error err) st).1.data (medKey (some u))
      = some [tempMed newMed u uuid now] := by
  simp [addMedication, mutationFn, onMutate, onError, onSettled, getQueryData,
    cancelQueries, setQueryDataWith, setQueryData, invalidateQueries, h, Option.getD]

/-- C10, witness: starting from the empty cache, after a failed insert the
placeholder is still cached. -/
theorem C10_absent_snapshot_rollback_keeps_placeholder_witness :
    emptyCache.data (medKey (some "u1")) = none
    ∧ (addMedication (some "u1") aspirin "tok" "2026-01-03T00:00:00Z"
        (Except.error "insert failed") emptyCache).1.data (medKey (some "u1"))
      = some [tempMed aspirin "u1" "tok" "2026-01-03T00:00:00Z"] :=
  ⟨rfl,
   C10_absent_snapshot_rollback_keeps_placeholder "u1" aspirin "tok" "2026-01-03T00:00:00Z"
     "insert failed" emptyCache rfl⟩

/-- C4: the whole mutation protocol, and a fetch completion of the query,
touch only the collection key of the operating user: every other key
keeps its cached data, its in-flight flag and its invalidation flag. -/
theorem C4_no_cross_owner_leakage
    (uid : Option String) (newMed : NewMedication) (uuid now : String)
    (remote : Except String Medication) (res : List Medication)
    (st : CacheState) (k : QueryKey) (h : k ≠ medKey uid) :
    (addMedication uid newMed uuid now remote st).1.data k = st.data k
    ∧ (addMedication uid newMed uuid now remote st).1.inFlight k = st.inFlight k
    ∧ (addMedication uid newMed uuid now remote st).1.invalidated k = st.invalidated k
    ∧ (fetchComplete (medKey uid) res st).data k = st.data k := by
  have main : (addMedication uid newMed uuid now remote st).1.data k = st.data k
      ∧ (addMedication uid newMed uuid now remote st).1.inFlight k = st.inFlight k
      ∧ (addMedication uid newMed uuid now remote st).1.invalidated k = st.invalidated k := by
    cases uid with
    | none =>
      cases remote <;>
        simp [addMedication, mutationFn, onMutate, onError, onSettled, getQueryData,
          cancelQueries, setQueryDataWith, setQueryData, invalidateQueries, h, Option.getD]
    | some u =>
      cases remote with
      | ok d =>
        simp [addMedication, mutationFn, onMutate, onError, onSettled, getQueryData,
          cancelQueries, setQueryDataWith, setQueryData, invalidateQueries, h, Option.getD]
      | error e =>
        cases hd : st.data (medKey (some u)) <;>
          simp [addMedication, mutationFn, onMutate, onError, onSettled, getQueryData,
            cancelQueries, setQueryDataWith, setQueryData, invalidateQueries, h, hd,
            Option.getD]
  refine ⟨main.1, main.2.1, main.2.2, ?_⟩
  unfold fetchComplete
  split <;> simp [h]

/-- C4, witness: a mutation of u1 over the seeded cache leaves the u2
entry untouched in all three components. -/
theorem C4_no_cross_owner_leakage_witness :
    medKey (some "u2") ≠ medKey (some "u1")
    ∧ ((addMedication (some "u1") aspirin "tok" "2026-01-03T00:00:00Z"
          (Except.ok med0) seededCache).1.data (medKey (some "u2"))
        = seededCache.data (medKey (some "u2"))
      ∧ (addMedication (some "u1") aspirin "tok" "2026-01-03T00:00:00Z"
          (Except.ok med0) seededCache).1.inFlight (medKey (some "u2"))
        = seededCache.inFlight (medKey (some "u2"))
      ∧ (addMedication (some "u1") aspirin "tok" "2026-01-03T00:00:00Z"
          (Except.ok med0) seededCache).1.invalidated (medKey (some "u2"))
        = seededCache.invalidated (medKey (some "u2"))
      ∧ (fetchComplete (medKey (some "u1")) [med0] seededCache).data (medKey (some "u2"))
        = seededCache.data (medKey (some "u2"))) :=
  ⟨by decide,
   C4_no_cross_owner_leakage (some "u1") aspirin "tok" "2026-01-03T00:00:00Z"
     (Except.ok med0) [med0] seededCache (medKey (some "u2")) (by decide)⟩

/-- C7: the speculative apply only appends - the cached records are kept
unchanged and in order with the placeholder last; the result is sorted by
created_at whenever the old records were sorted and none is later than
the client timestamp; and on an absent collection the result is the
one-element collection holding the placeholder. -/
theorem C7_apply_appends_preserving_order
    (u : String) (newMed : NewMedication) (uuid now : String) (st : CacheState)
    (old : List Medication)
    (h : st.data (medKey (some u)) = some old)
    (hsorted : sortedByCreatedAt old)
    (hle : ∀ m ∈ old, tsLe m.created_at now) :
    (onMutate (some u) newMed uuid now st).1.data (medKey (some u))
      = some (old ++ [tempMed newMed u uuid now])
    ∧ sortedByCreatedAt (old ++ [tempMed newMed u uuid now])
    ∧ ∀ st2 : CacheState, st2.data (medKey (some u)) = none →
        (onMutate (some u) newMed uuid now st2).1.data (medKey (some u))
          = some [tempMed newMed u uuid now] := by
  refine ⟨?_, ?_, ?_⟩
  · simp [onMutate, setQueryDataWith, setQueryData, cancelQueries, getQueryData, h]
  · unfold sortedByCreatedAt at hsorted ⊢
    rw [List.pairwise_append]
    refine ⟨hsorted, List.pairwise_singleton _ _, ?_⟩
    intro a ha b hb
    rw [List.mem_singleton] at hb
    subst hb
    exact hle a ha
  · intro st2 h2
    simp [onMutate, setQueryDataWith, setQueryData, cancelQueries, getQueryData, h2]

/-- C7, witness: appending over the one-record collection of u1 keeps
med0 first and the placeholder last, sorted by created_at. -/
theorem C7_apply_appends_preserving_order_witness :
    (seededCache.data (medKey (some "u1")) = some [med0]
      ∧ sortedByCreatedAt [med0]
      ∧ ∀ m ∈ [med0], tsLe m.created_at "2026-01-03T00:00:00Z")
    ∧ ((onMutate (some "u1") aspirin "tok" "2026-01-03T00:00:00Z" seededCache).1.data
          (medKey (some "u1"))
        = some ([med0] ++ [tempMed aspirin "u1" "tok" "2026-01-03T00:00:00Z"])
      ∧ sortedByCreatedAt ([med0] ++ [tempMed aspirin "u1" "tok" "2026-01-03T00:00:00Z"])
      ∧ ∀ st2 : CacheState, st2.data (medKey (some "u1")) = none →
          (onMutate (some "u1") aspirin "tok" "2026-01-03T00:00:00Z" st2).1.data
              (medKey (some "u1"))
            = some [tempMed aspirin "u1" "tok" "2026-01-03T00:00:00Z"]) :=
  ⟨⟨by decide, by decide, by decide⟩,
   C7_apply_appends_preserving_order "u1" aspirin "tok" "2026-01-03T00:00:00Z"
     seededCache [med0] (by decide) (by decide) (by decide)⟩

lemma foldl_fetchComplete_of_not_inFlight (k : QueryKey) (rs : List (List Medication)) :
    ∀ s : CacheState, s.inFlight k = false →
      List.foldl (fun s2 r => fetchComplete k r s2) s rs = s := by
  induction rs with
  | nil => intro s _; rfl
  | cons r rs ih =>
    intro s hs
    have hstep : fetchComplete k r s = s := by simp [fetchComplete, hs]
    rw [List.foldl_cons, hstep]
    exact ih s hs

/-- C5: once cancelQueries for the key has resolved, any sequence of
fetch completions for that key leaves the cache state exactly as it was
(a canceled fetch never writes), and the snapshot onMutate retains is
read from that post-cancel state — so nothing can write to the key
between the snapshot and the speculative apply. -/
theorem C5_cancel_suppresses_fetch_races
    (u : String) (newMed : NewMedication) (uuid now : String)
    (st : CacheState) (rs : List (List Medication)) :
    List.foldl (fun s r => fetchComplete (medKey (some u)) r s)
        (cancelQueries (medKey (some u)) st) rs
      = cancelQueries (medKey (some u)) st
    ∧ (onMutate (some u) newMed uuid now st).2
      = some ((cancelQueries (medKey (some u)) st).data (medKey (some u))) := by
  constructor
  · exact foldl_fetchComplete_of_not_inFlight (medKey (some u)) rs
      (cancelQueries (medKey (some u)) st) (by simp [cancelQueries])
  · simp [onMutate, getQueryData, cancelQueries]

/-- C8: a second mutation started after the first speculative apply takes
its own snapshot, which already contains the first placeholder; rolling
the second mutation back therefore restores a collection that still holds
the first, still-pending placeholder. -/
theorem C8_second_snapshot_contains_first_placeholder
    (u : String) (m1 m2 : NewMedication) (uuid1 uuid2 t1 t2 : String) (st : CacheState) :
    ((onMutate (some u) m2 uuid2 t2 (onMutate (some u) m1 uuid1 t1 st).1).2
      = some (some (((st.data (medKey (some u))).getD []) ++ [tempMed m1 u uuid1 t1])))
    ∧ ((onError (some u)
          (onMutate (some u) m2 uuid2 t2 (onMutate (some u) m1 uuid1 t1 st).1).2
          (onMutate (some u) m2 uuid2 t2 (onMutate (some u) m1 uuid1 t1 st).1).1).data
        (medKey (some u))
      = some (((st.data (medKey (some u))).getD []) ++ [tempMed m1 u uuid1 t1]))
    ∧ tempMed m1 u uuid1 t1
        ∈ ((st.data (medKey (some u))).getD []) ++ [tempMed m1 u uuid1 t1] := by
  refine ⟨?_, ?_, by simp⟩ <;>
    cases hd : st.data (medKey (some u)) <;>
      simp [onMutate, onError, getQueryData, cancelQueries, setQueryDataWith,
        setQueryData, hd, Option.getD]

lemma loadCalls_foldl_fresh (t0 : Nat) (res : List Medication)
    (events : List (Nat × List Medication))
    (h : ∀ e ∈ events, e.1 < t0 + staleTimeMs) :
    ∀ n : Nat,
      events.foldl loadStep
        ({ cached := some res, fetchedAt := some t0, stale := false }, n)
      = ({ cached := some res, fetchedAt := some t0, stale := false }, n) := by
  induction events with
  | nil => intro n; rfl
  | cons e es ih =>
    intro n
    have he : e.1 < t0 + staleTimeMs := h e (List.mem_cons_self e es)
    have hstep : loadStep ({ cached := some res, fetchedAt := some t0, stale := false }, n) e
        = ({ cached := some res, fetchedAt := some t0, stale := false }, n) := by
      simp [loadStep, load, isFresh, he]
    rw [List.foldl_cons, hstep]
    exact ih (fun e2 he2 => h e2 (List.mem_cons_of_mem _ he2)) n

/-- C9: starting with nothing cached, a first load at instant t0 issues
one Remote Store call, and every further load strictly inside the
5-minute freshness window is a no-op against the Remote Store — the whole
sequence issues exactly one call. -/
theorem C9_loads_within_freshness_window_issue_one_call
    (t0 : Nat) (res : List Medication) (events : List (Nat × List Medication))
    (h : ∀ e ∈ events, e.1 < t0 + staleTimeMs) :
    loadCalls ((t0, res) :: events) { cached := none, fetchedAt := none, stale := false }
      = ({ cached := some res, fetchedAt := some t0, stale := false }, 1) := by
  unfold loadCalls
  rw [List.foldl_cons]
  have h1 : loadStep ({ cached := none, fetchedAt := none, stale := false }, 0) (t0, res)
      = ({ cached := some res, fetchedAt := some t0, stale := false }, 1) := by
    simp [loadStep, load, isFresh]
  rw [h1]
  exact loadCalls_foldl_fresh t0 res events h 1

/-- C9, witness: two further loads 1 second and just under 5 minutes after
the fetch issue no further Remote Store call. -/
theorem C9_loads_within_freshness_window_issue_one_call_witness :
    (∀ e ∈ [((1000 : Nat), ([] : List Medication)), (299999, [med0])],
      e.1 < 0 + staleTimeMs)
    ∧ loadCalls ((0, [med2]) :: [((1000 : Nat), ([] : List Medication)), (299999, [med0])])
        { cached := none, fetchedAt := none, stale := false }
      = ({ cached := some [med2], fetchedAt := some 0, stale := false }, 1) :=
  ⟨by decide,
   C9_loads_within_freshness_window_issue_one_call 0 [med2]
     [(1000, []), (299999, [med0])] (by decide)⟩

end MedsBuddy
